import Mathlib

/-
Verification of the token-category classifier of token_analyzer_jp.py and the
logit-bias preparation of openai_call_jp.py, as a shallow embedding in Lean 4.

Decoded tokens are lists of Unicode characters.  The Unicode character
database behind Python's language-neutral str.isalnum and str.isspace is an
external table, so the development is parameterized over it (structure
CharTables below).  The tokenizer is an external collaborator; per-id decoding
is modelled by a function into DecodeOutcome (a decode may raise, return the
empty string, or return a character list).
-/

/-- Python's Unicode-database character predicates str.isalnum and
str.isspace, abstracted as an external table of booleans. -/
structure CharTables where
  isalnum : Char → Bool
  isspace : Char → Bool

/- Character Class Registry: Unicode ranges and explicit code-point sets from
token_analyzer_jp.py lines 19-51.  Each Python set of characters is embedded
as its membership predicate on a character. -/

/-- HIRAGANA = set(chr(c) for c in range(0x3040, 0x30A0)). -/
def HIRAGANA (c : Char) : Bool := decide (0x3040 ≤ c.toNat ∧ c.toNat < 0x30A0)

/-- KATAKANA = set(chr(c) for c in range(0x30A0, 0x3100)). -/
def KATAKANA (c : Char) : Bool := decide (0x30A0 ≤ c.toNat ∧ c.toNat < 0x3100)

/-- KATAKANA_HW = set(chr(c) for c in range(0xFF65, 0xFFA0)). -/
def KATAKANA_HW (c : Char) : Bool := decide (0xFF65 ≤ c.toNat ∧ c.toNat < 0xFFA0)

/-- KANJI_COMMON = set(chr(c) for c in range(0x4E00, 0xA000)). -/
def KANJI_COMMON (c : Char) : Bool := decide (0x4E00 ≤ c.toNat ∧ c.toNat < 0xA000)

/-- KANJI_EXT_A = set(chr(c) for c in range(0x3400, 0x4DC0)). -/
def KANJI_EXT_A (c : Char) : Bool := decide (0x3400 ≤ c.toNat ∧ c.toNat < 0x4DC0)

/-- JP_PUNCT = set("、。「」『』【】・（）：；？！｡｢｣､"), listed by code point:
U+3001 U+3002 U+300C U+300D U+300E U+300F U+3010 U+3011 U+30FB
U+FF08 U+FF09 U+FF1A U+FF1B U+FF1F U+FF01 U+FF61 U+FF62 U+FF63 U+FF64. -/
def JP_PUNCT (c : Char) : Bool :=
  decide (c.toNat = 0x3001 ∨ c.toNat = 0x3002 ∨ c.toNat = 0x300C ∨ c.toNat = 0x300D ∨
    c.toNat = 0x300E ∨ c.toNat = 0x300F ∨ c.toNat = 0x3010 ∨ c.toNat = 0x3011 ∨
    c.toNat = 0x30FB ∨ c.toNat = 0xFF08 ∨ c.toNat = 0xFF09 ∨ c.toNat = 0xFF1A ∨
    c.toNat = 0xFF1B ∨ c.toNat = 0xFF1F ∨ c.toNat = 0xFF01 ∨ c.toNat = 0xFF61 ∨
    c.toNat = 0xFF62 ∨ c.toNat = 0xFF63 ∨ c.toNat = 0xFF64)

/-- JP_SYMBOLS_ETC = set("　〜・￥"): U+3000, U+301C, U+30FB, U+FFE5. -/
def JP_SYMBOLS_ETC (c : Char) : Bool :=
  decide (c.toNat = 0x3000 ∨ c.toNat = 0x301C ∨ c.toNat = 0x30FB ∨ c.toNat = 0xFFE5)

/-- JP_FULLWIDTH_DIGITS = set(chr(c) for c in range(0xFF10, 0xFF1A)). -/
def JP_FULLWIDTH_DIGITS (c : Char) : Bool := decide (0xFF10 ≤ c.toNat ∧ c.toNat < 0xFF1A)

/-- JP_FULLWIDTH_LATIN_UPPER = set(chr(c) for c in range(0xFF21, 0xFF3B)). -/
def JP_FULLWIDTH_LATIN_UPPER (c : Char) : Bool := decide (0xFF21 ≤ c.toNat ∧ c.toNat < 0xFF3B)

/-- JP_FULLWIDTH_LATIN_LOWER = set(chr(c) for c in range(0xFF41, 0xFF5B)). -/
def JP_FULLWIDTH_LATIN_LOWER (c : Char) : Bool := decide (0xFF41 ≤ c.toNat ∧ c.toNat < 0xFF5B)

/-- JP_FULLWIDTH_LATIN = JP_FULLWIDTH_LATIN_UPPER | JP_FULLWIDTH_LATIN_LOWER. -/
def JP_FULLWIDTH_LATIN (c : Char) : Bool := JP_FULLWIDTH_LATIN_UPPER c || JP_FULLWIDTH_LATIN_LOWER c

/-- JP_FULLWIDTH_ASCII_PRINTABLE = set(chr(c) for c in range(0xFF01, 0xFF5F)). -/
def JP_FULLWIDTH_ASCII_PRINTABLE (c : Char) : Bool :=
  decide (0xFF01 ≤ c.toNat ∧ c.toNat < 0xFF5F)

/-- ENGLISH_BASIC = ENGLISH_LOWER | ENGLISH_UPPER, that is a-z together with A-Z. -/
def ENGLISH_BASIC (c : Char) : Bool :=
  decide ((0x61 ≤ c.toNat ∧ c.toNat ≤ 0x7A) ∨ (0x41 ≤ c.toNat ∧ c.toNat ≤ 0x5A))

/-- is_japanese_related_char from token_analyzer_jp.py lines 56-70. -/
def is_japanese_related_char (c : Char) : Bool :=
  HIRAGANA c || KATAKANA c || KATAKANA_HW c || KANJI_COMMON c || KANJI_EXT_A c ||
    JP_PUNCT c || JP_SYMBOLS_ETC c || JP_FULLWIDTH_ASCII_PRINTABLE c

/-- is_pure_japanese_script_char from token_analyzer_jp.py lines 73-85. -/
def is_pure_japanese_script_char (c : Char) : Bool :=
  HIRAGANA c || KATAKANA c || KATAKANA_HW c || KANJI_COMMON c || KANJI_EXT_A c

/-- is_special_char_pattern from token_analyzer_jp.py lines 88-105: an empty
token yields False, otherwise every character must fail isalnum, isspace,
is_japanese_related_char and ENGLISH_BASIC membership. -/
def is_special_char_pattern (T : CharTables) (token : List Char) : Bool :=
  match token with
  | [] => false
  | _ => token.all fun c =>
      !(T.isalnum c) && !(T.isspace c) && !(is_japanese_related_char c) && !(ENGLISH_BASIC c)

/- Per-character classification locals of the scanning loop
(token_analyzer_jp.py lines 243-250). -/

/-- is_kanji = char in KANJI_COMMON or char in KANJI_EXT_A. -/
def charIsKanji (c : Char) : Bool := KANJI_COMMON c || KANJI_EXT_A c

/-- is_jp_ps = char in JP_PUNCT or char in JP_SYMBOLS_ETC. -/
def charIsJpPs (c : Char) : Bool := JP_PUNCT c || JP_SYMBOLS_ETC c

/-- is_digit = "0" <= char <= "9", an ASCII code-point comparison. -/
def charIsDigitAscii (c : Char) : Bool := decide (0x30 ≤ c.toNat ∧ c.toNat ≤ 0x39)

/-- is_pure_jp = is_hira or is_kata_f or is_kata_h or is_kanji (line 275). -/
def charIsPureJp (c : Char) : Bool :=
  HIRAGANA c || KATAKANA c || KATAKANA_HW c || charIsKanji c

/-- Character-level flags accumulated over a decoded token
(token_analyzer_jp.py lines 224-302).  The source also computes
has_other_char and all_special_pattern, but neither local is ever read after
the loop, so they are omitted from the embedding. -/
structure TokenFlags where
  has_hiragana : Bool
  has_katakana_full : Bool
  has_katakana_half : Bool
  has_kanji : Bool
  has_jp_punct_symbol : Bool
  has_fullwidth_ascii : Bool
  has_basic_english : Bool
  has_digit : Bool
  all_pure_jp_script : Bool
  all_basic_english : Bool

/-- Initial flag values before the character loop (lines 225-238). -/
def initFlags : TokenFlags :=
  { has_hiragana := false, has_katakana_full := false, has_katakana_half := false,
    has_kanji := false, has_jp_punct_symbol := false, has_fullwidth_ascii := false,
    has_basic_english := false, has_digit := false,
    all_pure_jp_script := true, all_basic_english := true }

/-- One iteration of the character loop (lines 241-302). -/
def updateFlags (f : TokenFlags) (c : Char) : TokenFlags :=
  { has_hiragana := f.has_hiragana || HIRAGANA c,
    has_katakana_full := f.has_katakana_full || KATAKANA c,
    has_katakana_half := f.has_katakana_half || KATAKANA_HW c,
    has_kanji := f.has_kanji || charIsKanji c,
    has_jp_punct_symbol := f.has_jp_punct_symbol || charIsJpPs c,
    has_fullwidth_ascii := f.has_fullwidth_ascii || JP_FULLWIDTH_ASCII_PRINTABLE c,
    has_basic_english := f.has_basic_english || ENGLISH_BASIC c,
    has_digit := f.has_digit || charIsDigitAscii c,
    all_pure_jp_script := f.all_pure_jp_script && charIsPureJp c,
    all_basic_english := f.all_basic_english && ENGLISH_BASIC c }

/-- Flag accumulation over the whole decoded token. -/
def scanFlags (token : List Char) : TokenFlags := token.foldl updateFlags initFlags

/-- is_related_to_jp = OR of the six Japanese-flavored has-flags (lines 306-313). -/
def is_related_to_jp (f : TokenFlags) : Bool :=
  f.has_hiragana || f.has_katakana_full || f.has_katakana_half || f.has_kanji ||
    f.has_jp_punct_symbol || f.has_fullwidth_ascii

/-- Which category sets a single token is added to by the assignment block
(token_analyzer_jp.py lines 304-378), and whether its processing raised. -/
structure TokenCats where
  contains_japanese : Bool
  contains_hiragana : Bool
  contains_katakana_full : Bool
  contains_katakana_half : Bool
  contains_kanji : Bool
  contains_jp_punct_symbol : Bool
  contains_fullwidth_ascii : Bool
  pure_japanese_script : Bool
  contains_basic_english : Bool
  pure_english : Bool
  contains_digit : Bool
  special_char_pattern : Bool
  errored : Bool

/-- No category assigned, no error. -/
def emptyCats : TokenCats :=
  { contains_japanese := false, contains_hiragana := false, contains_katakana_full := false,
    contains_katakana_half := false, contains_kanji := false, contains_jp_punct_symbol := false,
    contains_fullwidth_ascii := false, pure_japanese_script := false,
    contains_basic_english := false, pure_english := false, contains_digit := false,
    special_char_pattern := false, errored := false }

/-- Per-token category assignment (token_analyzer_jp.py lines 304-378).
Line 321 of the source executes
categories["contains_halfwidth_katakana"].add(token_id), but the categories
dictionary (lines 155-172) defines only the key "contains_katakana_half", so
for a token whose has_katakana_half flag is set the lookup raises KeyError.
The per-token try/except (lines 369-378) catches it, increments the error
count and moves on; dictionary-set mutations already performed stay in place.
Hence err below marks the raise; fields assigned before the raising line
(contains_japanese, contains_hiragana, contains_katakana_full) carry no
error guard, fields assigned after it are guarded by !err, and
contains_katakana_half itself is never assigned (the missing key means the
add call is never reached). -/
def classify (T : CharTables) (token : List Char) : TokenCats :=
  let f := scanFlags token
  let rel := is_related_to_jp f
  let err := rel && f.has_katakana_half
  { contains_japanese := rel,
    contains_hiragana := rel && f.has_hiragana,
    contains_katakana_full := rel && f.has_katakana_full,
    contains_katakana_half := false,
    contains_kanji := !err && (rel && f.has_kanji),
    contains_jp_punct_symbol := !err && (rel && f.has_jp_punct_symbol),
    contains_fullwidth_ascii := !err && (rel && f.has_fullwidth_ascii),
    pure_japanese_script := !err && (rel && (f.all_pure_jp_script &&
      (f.has_hiragana || f.has_katakana_full || f.has_katakana_half || f.has_kanji))),
    contains_basic_english := !err && f.has_basic_english,
    pure_english := !err && (f.has_basic_english && (f.all_basic_english && !rel)),
    contains_digit := !err && f.has_digit,
    special_char_pattern := !err && (!rel && !f.has_basic_english && !f.has_digit &&
      is_special_char_pattern T token),
    errored := err }

/-- Outcome of the external tokenizer decoding one id: the decode call may
raise, or return a (possibly empty) string. -/
inductive DecodeOutcome where
  | failed
  | ok (s : List Char)
deriving DecidableEq

/-- Full per-id processing inside the analysis loop (lines 207-378): a decode
failure is caught and counted as an error with nothing assigned; an empty
decoded string is skipped without error; otherwise the token is classified. -/
def procToken (T : CharTables) (d : DecodeOutcome) : TokenCats :=
  match d with
  | DecodeOutcome.failed => { emptyCats with errored := true }
  | DecodeOutcome.ok s => if s = [] then emptyCats else classify T s

/-- The set of analyzed ids landing in the category selected by p.  Because
each loop iteration touches only its own id, the accumulated set for a
category equals this filter of the analyzed ids. -/
def catSet (T : CharTables) (decode : ℕ → DecodeOutcome) (analyzed : Finset ℕ)
    (p : TokenCats → Bool) : Finset ℕ :=
  analyzed.filter fun i => p (procToken T (decode i)) = true

/-- all_categorized_ids (lines 392-395): union of every category set except
uncategorized (the contains_katakana_half component is always empty, see
classify, but the source includes it in the union and so do we). -/
def coveredIds (T : CharTables) (decode : ℕ → DecodeOutcome) (analyzed : Finset ℕ) : Finset ℕ :=
  catSet T decode analyzed (fun t => t.contains_japanese) ∪
  catSet T decode analyzed (fun t => t.pure_japanese_script) ∪
  catSet T decode analyzed (fun t => t.pure_english) ∪
  catSet T decode analyzed (fun t => t.contains_hiragana) ∪
  catSet T decode analyzed (fun t => t.contains_katakana_full) ∪
  catSet T decode analyzed (fun t => t.contains_katakana_half) ∪
  catSet T decode analyzed (fun t => t.contains_kanji) ∪
  catSet T decode analyzed (fun t => t.contains_jp_punct_symbol) ∪
  catSet T decode analyzed (fun t => t.contains_fullwidth_ascii) ∪
  catSet T decode analyzed (fun t => t.contains_basic_english) ∪
  catSet T decode analyzed (fun t => t.contains_digit) ∪
  catSet T decode analyzed (fun t => t.special_char_pattern)

/-- The analysis result assembled by analyze_token_categories
(token_analyzer_jp.py lines 387-420): the thirteen category id sets, the
analyzed-token count (computed as len(analyzed_token_ids) before the loop,
line 180) and the error count. -/
structure AnalysisResult where
  contains_japanese : Finset ℕ
  pure_japanese_script : Finset ℕ
  pure_english : Finset ℕ
  contains_hiragana : Finset ℕ
  contains_katakana_full : Finset ℕ
  contains_katakana_half : Finset ℕ
  contains_kanji : Finset ℕ
  contains_jp_punct_symbol : Finset ℕ
  contains_fullwidth_ascii : Finset ℕ
  contains_basic_english : Finset ℕ
  contains_digit : Finset ℕ
  special_char_pattern : Finset ℕ
  uncategorized : Finset ℕ
  num_tokens_analyzed : ℕ
  num_errors : ℕ

/-- analyze_token_categories, embedded over an abstract decode map and an
abstract analyzed-id set (the source builds the latter from the vocabulary
range minus special ids, line 175).  uncategorized is the set difference of
the analyzed ids and the union of all other categories (lines 390-399). -/
def analyze_token_categories (T : CharTables) (decode : ℕ → DecodeOutcome)
    (analyzed_token_ids : Finset ℕ) : AnalysisResult :=
  { contains_japanese := catSet T decode analyzed_token_ids (fun t => t.contains_japanese),
    pure_japanese_script := catSet T decode analyzed_token_ids (fun t => t.pure_japanese_script),
    pure_english := catSet T decode analyzed_token_ids (fun t => t.pure_english),
    contains_hiragana := catSet T decode analyzed_token_ids (fun t => t.contains_hiragana),
    contains_katakana_full := catSet T decode analyzed_token_ids (fun t => t.contains_katakana_full),
    contains_katakana_half := catSet T decode analyzed_token_ids (fun t => t.contains_katakana_half),
    contains_kanji := catSet T decode analyzed_token_ids (fun t => t.contains_kanji),
    contains_jp_punct_symbol := catSet T decode analyzed_token_ids (fun t => t.contains_jp_punct_symbol),
    contains_fullwidth_ascii := catSet T decode analyzed_token_ids (fun t => t.contains_fullwidth_ascii),
    contains_basic_english := catSet T decode analyzed_token_ids (fun t => t.contains_basic_english),
    contains_digit := catSet T decode analyzed_token_ids (fun t => t.contains_digit),
    special_char_pattern := catSet T decode analyzed_token_ids (fun t => t.special_char_pattern),
    uncategorized := analyzed_token_ids \ coveredIds T decode analyzed_token_ids,
    num_tokens_analyzed := analyzed_token_ids.card,
    num_errors := (analyzed_token_ids.filter fun i => (procToken T (decode i)).errored = true).card }

/-- Sample instantiation of the external Unicode tables, used only to
evaluate the model on concrete inputs; every general theorem below is
quantified over the tables. -/
def sampleTables : CharTables :=
  { isalnum := Char.isAlphanum, isspace := Char.isWhitespace }

/- Embedding of the logit-bias preparation in openai_call_jp.py main
(lines 130-178).  The Python float bias is modelled as a rational number:
the computation only compares and selects values, never rounds. -/

/-- clamped_bias = max(-100.0, min(100.0, args.japanese_bias)),
openai_call_jp.py line 169. -/
def clamped_bias (japanese_bias : ℚ) : ℚ := max (-100) (min 100 japanese_bias)

/-- logit_bias_dict maps str(token_id) to clamped_bias for every loaded id
(openai_call_jp.py line 175), embedded as an association list in id order. -/
def logit_bias_dict (japanese_ids : List ℤ) (japanese_bias : ℚ) : List (String × ℚ) :=
  japanese_ids.map fun token_id => (toString token_id, clamped_bias japanese_bias)

/-- Guarding flow of openai_call_jp.py main: ids are loaded only under
args.japanese_bias != 0 (line 131) and the dictionary is built only when the
loaded list is non-empty (line 167); otherwise logit_bias_dict stays None. -/
def prepare_logit_bias (japanese_ids : List ℤ) (japanese_bias : ℚ) :
    Option (List (String × ℚ)) :=
  if japanese_bias ≠ 0 ∧ japanese_ids ≠ [] then
    some (logit_bias_dict japanese_ids japanese_bias)
  else none

/- Helper lemmas about the embedding. -/

lemma mem_catSet {T : CharTables} {decode : ℕ → DecodeOutcome} {analyzed : Finset ℕ}
    {p : TokenCats → Bool} {i : ℕ} :
    i ∈ catSet T decode analyzed p ↔ i ∈ analyzed ∧ p (procToken T (decode i)) = true :=
  Finset.mem_filter

lemma catSet_subset_analyzed (T : CharTables) (decode : ℕ → DecodeOutcome)
    (analyzed : Finset ℕ) (p : TokenCats → Bool) :
    catSet T decode analyzed p ⊆ analyzed :=
  Finset.filter_subset _ _

lemma catSet_sub {T : CharTables} {decode : ℕ → DecodeOutcome} {analyzed : Finset ℕ}
    {p q : TokenCats → Bool}
    (h : ∀ d, p (procToken T d) = true → q (procToken T d) = true) :
    catSet T decode analyzed p ⊆ catSet T decode analyzed q := by
  intro i hi
  rw [mem_catSet] at hi ⊢
  exact ⟨hi.1, h (decode i) hi.2⟩

lemma catSet_disj {T : CharTables} {decode : ℕ → DecodeOutcome} {analyzed : Finset ℕ}
    {p q : TokenCats → Bool}
    (h : ∀ d, p (procToken T d) = true → q (procToken T d) = false) :
    Disjoint (catSet T decode analyzed p) (catSet T decode analyzed q) := by
  rw [Finset.disjoint_left]
  intro i hip hiq
  rw [mem_catSet] at hip hiq
  have hq := h (decode i) hip.2
  simp [hq] at hiq

lemma coveredIds_subset (T : CharTables) (decode : ℕ → DecodeOutcome) (analyzed : Finset ℕ) :
    coveredIds T decode analyzed ⊆ analyzed := by
  intro i hi
  simp only [coveredIds, Finset.mem_union, mem_catSet] at hi
  tauto

lemma disjoint_uncat {T : CharTables} {decode : ℕ → DecodeOutcome} {analyzed : Finset ℕ}
    {s : Finset ℕ} (h : s ⊆ coveredIds T decode analyzed) :
    Disjoint (analyzed \ coveredIds T decode analyzed) s :=
  Finset.disjoint_of_subset_right h Finset.sdiff_disjoint

/- Projection equations of the assembled analysis result. -/

lemma result_contains_japanese (T : CharTables) (decode : ℕ → DecodeOutcome) (a : Finset ℕ) :
    (analyze_token_categories T decode a).contains_japanese =
      catSet T decode a (fun t => t.contains_japanese) := rfl

lemma result_pure_japanese_script (T : CharTables) (decode : ℕ → DecodeOutcome) (a : Finset ℕ) :
    (analyze_token_categories T decode a).pure_japanese_script =
      catSet T decode a (fun t => t.pure_japanese_script) := rfl

lemma result_pure_english (T : CharTables) (decode : ℕ → DecodeOutcome) (a : Finset ℕ) :
    (analyze_token_categories T decode a).pure_english =
      catSet T decode a (fun t => t.pure_english) := rfl

lemma result_contains_hiragana (T : CharTables) (decode : ℕ → DecodeOutcome) (a : Finset ℕ) :
    (analyze_token_categories T decode a).contains_hiragana =
      catSet T decode a (fun t => t.contains_hiragana) := rfl

lemma result_contains_katakana_full (T : CharTables) (decode : ℕ → DecodeOutcome) (a : Finset ℕ) :
    (analyze_token_categories T decode a).contains_katakana_full =
      catSet T decode a (fun t => t.contains_katakana_full) := rfl

lemma result_contains_katakana_half (T : CharTables) (decode : ℕ → DecodeOutcome) (a : Finset ℕ) :
    (analyze_token_categories T decode a).contains_katakana_half =
      catSet T decode a (fun t => t.contains_katakana_half) := rfl

lemma result_contains_kanji (T : CharTables) (decode : ℕ → DecodeOutcome) (a : Finset ℕ) :
    (analyze_token_categories T decode a).contains_kanji =
      catSet T decode a (fun t => t.contains_kanji) := rfl

lemma result_contains_jp_punct_symbol (T : CharTables) (decode : ℕ → DecodeOutcome) (a : Finset ℕ) :
    (analyze_token_categories T decode a).contains_jp_punct_symbol =
      catSet T decode a (fun t => t.contains_jp_punct_symbol) := rfl

lemma result_contains_fullwidth_ascii (T : CharTables) (decode : ℕ → DecodeOutcome) (a : Finset ℕ) :
    (analyze_token_categories T decode a).contains_fullwidth_ascii =
      catSet T decode a (fun t => t.contains_fullwidth_ascii) := rfl

lemma result_contains_basic_english (T : CharTables) (decode : ℕ → DecodeOutcome) (a : Finset ℕ) :
    (analyze_token_categories T decode a).contains_basic_english =
      catSet T decode a (fun t => t.contains_basic_english) := rfl

lemma result_contains_digit (T : CharTables) (decode : ℕ → DecodeOutcome) (a : Finset ℕ) :
    (analyze_token_categories T decode a).contains_digit =
      catSet T decode a (fun t => t.contains_digit) := rfl

lemma result_special_char_pattern (T : CharTables) (decode : ℕ → DecodeOutcome) (a : Finset ℕ) :
    (analyze_token_categories T decode a).special_char_pattern =
      catSet T decode a (fun t => t.special_char_pattern) := rfl

lemma result_uncategorized (T : CharTables) (decode : ℕ → DecodeOutcome) (a : Finset ℕ) :
    (analyze_token_categories T decode a).uncategorized =
      a \ coveredIds T decode a := rfl

lemma result_num_tokens_analyzed (T : CharTables) (decode : ℕ → DecodeOutcome) (a : Finset ℕ) :
    (analyze_token_categories T decode a).num_tokens_analyzed = a.card := rfl

lemma result_num_errors (T : CharTables) (decode : ℕ → DecodeOutcome) (a : Finset ℕ) :
    (analyze_token_categories T decode a).num_errors =
      (a.filter fun i => (procToken T (decode i)).errored = true).card := rfl

/-- Implications between the per-token category booleans that hold for every
decode outcome: facet and purity categories sit below their umbrella
categories, and the purity/residual categories exclude each other. -/
lemma procToken_imps (T : CharTables) (d : DecodeOutcome) :
    ((procToken T d).pure_japanese_script = true → (procToken T d).contains_japanese = true) ∧
    ((procToken T d).contains_hiragana = true → (procToken T d).contains_japanese = true) ∧
    ((procToken T d).contains_katakana_full = true → (procToken T d).contains_japanese = true) ∧
    ((procToken T d).contains_katakana_half = true → (procToken T d).contains_japanese = true) ∧
    ((procToken T d).contains_kanji = true → (procToken T d).contains_japanese = true) ∧
    ((procToken T d).contains_jp_punct_symbol = true → (procToken T d).contains_japanese = true) ∧
    ((procToken T d).contains_fullwidth_ascii = true → (procToken T d).contains_japanese = true) ∧
    ((procToken T d).pure_english = true → (procToken T d).contains_basic_english = true) ∧
    ((procToken T d).pure_japanese_script = true → (procToken T d).pure_english = false) ∧
    ((procToken T d).pure_japanese_script = true → (procToken T d).special_char_pattern = false) ∧
    ((procToken T d).pure_english = true → (procToken T d).contains_japanese = false) ∧
    ((procToken T d).pure_english = true → (procToken T d).special_char_pattern = false) ∧
    ((procToken T d).special_char_pattern = true → (procToken T d).contains_japanese = false) ∧
    ((procToken T d).special_char_pattern = true → (procToken T d).contains_basic_english = false) := by
  cases d with
  | failed => simp [procToken, emptyCats]
  | ok s =>
    simp only [procToken]
    by_cases hs : s = []
    · simp [hs, emptyCats]
    · simp only [if_neg hs, classify]
      refine ⟨?_, ?_, ?_, ?_, ?_, ?_, ?_, ?_, ?_, ?_, ?_, ?_, ?_, ?_⟩ <;>
        (intro h;
         simp only [Bool.and_eq_true, Bool.not_eq_true', Bool.false_eq_true] at h <;>
         simp_all)

/- Characterizations of the accumulated has-flags. -/

lemma foldl_has_digit (l : List Char) : ∀ f : TokenFlags,
    (l.foldl updateFlags f).has_digit = (f.has_digit || l.any charIsDigitAscii) := by
  induction l with
  | nil => intro f; simp
  | cons a l ih =>
      intro f
      simp [List.foldl_cons, List.any_cons, ih, updateFlags, Bool.or_assoc]

lemma foldl_has_fullwidth_ascii (l : List Char) : ∀ f : TokenFlags,
    (l.foldl updateFlags f).has_fullwidth_ascii =
      (f.has_fullwidth_ascii || l.any JP_FULLWIDTH_ASCII_PRINTABLE) := by
  induction l with
  | nil => intro f; simp
  | cons a l ih =>
      intro f
      simp [List.foldl_cons, List.any_cons, ih, updateFlags, Bool.or_assoc]

lemma foldl_has_katakana_half (l : List Char) : ∀ f : TokenFlags,
    (l.foldl updateFlags f).has_katakana_half = (f.has_katakana_half || l.any KATAKANA_HW) := by
  induction l with
  | nil => intro f; simp
  | cons a l ih =>
      intro f
      simp [List.foldl_cons, List.any_cons, ih, updateFlags, Bool.or_assoc]

lemma scanFlags_has_digit (s : List Char) :
    (scanFlags s).has_digit = s.any charIsDigitAscii := by
  simp [scanFlags, foldl_has_digit, initFlags]

lemma scanFlags_has_fullwidth_ascii (s : List Char) :
    (scanFlags s).has_fullwidth_ascii = s.any JP_FULLWIDTH_ASCII_PRINTABLE := by
  simp [scanFlags, foldl_has_fullwidth_ascii, initFlags]

lemma scanFlags_has_katakana_half (s : List Char) :
    (scanFlags s).has_katakana_half = s.any KATAKANA_HW := by
  simp [scanFlags, foldl_has_katakana_half, initFlags]

/-- Each of the twelve positive category sets is contained in the union
all_categorized_ids. -/
lemma sub_covered_all (T : CharTables) (decode : ℕ → DecodeOutcome) (analyzed : Finset ℕ) :
    (catSet T decode analyzed (fun t => t.contains_japanese) ⊆ coveredIds T decode analyzed) ∧
    (catSet T decode analyzed (fun t => t.pure_japanese_script) ⊆ coveredIds T decode analyzed) ∧
    (catSet T decode analyzed (fun t => t.pure_english) ⊆ coveredIds T decode analyzed) ∧
    (catSet T decode analyzed (fun t => t.contains_hiragana) ⊆ coveredIds T decode analyzed) ∧
    (catSet T decode analyzed (fun t => t.contains_katakana_full) ⊆ coveredIds T decode analyzed) ∧
    (catSet T decode analyzed (fun t => t.contains_katakana_half) ⊆ coveredIds T decode analyzed) ∧
    (catSet T decode analyzed (fun t => t.contains_kanji) ⊆ coveredIds T decode analyzed) ∧
    (catSet T decode analyzed (fun t => t.contains_jp_punct_symbol) ⊆ coveredIds T decode analyzed) ∧
    (catSet T decode analyzed (fun t => t.contains_fullwidth_ascii) ⊆ coveredIds T decode analyzed) ∧
    (catSet T decode analyzed (fun t => t.contains_basic_english) ⊆ coveredIds T decode analyzed) ∧
    (catSet T decode analyzed (fun t => t.contains_digit) ⊆ coveredIds T decode analyzed) ∧
    (catSet T decode analyzed (fun t => t.special_char_pattern) ⊆ coveredIds T decode analyzed) := by
  refine ⟨?_, ?_, ?_, ?_, ?_, ?_, ?_, ?_, ?_, ?_, ?_, ?_⟩ <;>
    (intro i hi; simp only [coveredIds, Finset.mem_union]; tauto)

/-- A full-width digit is a full-width printable ASCII character. -/
lemma fullwidth_digit_is_fullwidth_ascii (c : Char)
    (h : JP_FULLWIDTH_DIGITS c = true) : JP_FULLWIDTH_ASCII_PRINTABLE c = true := by
  simp only [JP_FULLWIDTH_DIGITS, JP_FULLWIDTH_ASCII_PRINTABLE, decide_eq_true_eq] at h ⊢
  omega

/-- C5: for every analysis result returned by analyze_token_categories,
num_tokens_analyzed equals the size of the union of all category id sets
other than uncategorized plus the size of the uncategorized set, because
uncategorized is computed as the set difference of the analyzed ids and that
union. -/
theorem C5_count_invariant (T : CharTables) (decode : ℕ → DecodeOutcome)
    (analyzed : Finset ℕ) :
    (analyze_token_categories T decode analyzed).num_tokens_analyzed =
      ((analyze_token_categories T decode analyzed).contains_japanese ∪
       (analyze_token_categories T decode analyzed).pure_japanese_script ∪
       (analyze_token_categories T decode analyzed).pure_english ∪
       (analyze_token_categories T decode analyzed).contains_hiragana ∪
       (analyze_token_categories T decode analyzed).contains_katakana_full ∪
       (analyze_token_categories T decode analyzed).contains_katakana_half ∪
       (analyze_token_categories T decode analyzed).contains_kanji ∪
       (analyze_token_categories T decode analyzed).contains_jp_punct_symbol ∪
       (analyze_token_categories T decode analyzed).contains_fullwidth_ascii ∪
       (analyze_token_categories T decode analyzed).contains_basic_english ∪
       (analyze_token_categories T decode analyzed).contains_digit ∪
       (analyze_token_categories T decode analyzed).special_char_pattern).card +
      (analyze_token_categories T decode analyzed).uncategorized.card ∧
    (analyze_token_categories T decode analyzed).uncategorized =
      analyzed \
      ((analyze_token_categories T decode analyzed).contains_japanese ∪
       (analyze_token_categories T decode analyzed).pure_japanese_script ∪
       (analyze_token_categories T decode analyzed).pure_english ∪
       (analyze_token_categories T decode analyzed).contains_hiragana ∪
       (analyze_token_categories T decode analyzed).contains_katakana_full ∪
       (analyze_token_categories T decode analyzed).contains_katakana_half ∪
       (analyze_token_categories T decode analyzed).contains_kanji ∪
       (analyze_token_categories T decode analyzed).contains_jp_punct_symbol ∪
       (analyze_token_categories T decode analyzed).contains_fullwidth_ascii ∪
       (analyze_token_categories T decode analyzed).contains_basic_english ∪
       (analyze_token_categories T decode analyzed).contains_digit ∪
       (analyze_token_categories T decode analyzed).special_char_pattern) := by
  constructor
  · show analyzed.card =
      (coveredIds T decode analyzed).card + (analyzed \ coveredIds T decode analyzed).card
    have h := Finset.card_sdiff_add_card_eq_card (coveredIds_subset T decode analyzed)
    omega
  · rfl

/-- C6: for every analysis result, the listed category pairs have disjoint id
sets, and uncategorized is disjoint from every other defined category. -/
theorem C6_disjointness (T : CharTables) (decode : ℕ → DecodeOutcome)
    (analyzed : Finset ℕ) :
    Disjoint (analyze_token_categories T decode analyzed).pure_japanese_script
      (analyze_token_categories T decode analyzed).pure_english ∧
    Disjoint (analyze_token_categories T decode analyzed).pure_japanese_script
      (analyze_token_categories T decode analyzed).special_char_pattern ∧
    Disjoint (analyze_token_categories T decode analyzed).pure_japanese_script
      (analyze_token_categories T decode analyzed).uncategorized ∧
    Disjoint (analyze_token_categories T decode analyzed).pure_english
      (analyze_token_categories T decode analyzed).contains_japanese ∧
    Disjoint (analyze_token_categories T decode analyzed).pure_english
      (analyze_token_categories T decode analyzed).special_char_pattern ∧
    Disjoint (analyze_token_categories T decode analyzed).pure_english
      (analyze_token_categories T decode analyzed).uncategorized ∧
    Disjoint (analyze_token_categories T decode analyzed).special_char_pattern
      (analyze_token_categories T decode analyzed).contains_japanese ∧
    Disjoint (analyze_token_categories T decode analyzed).special_char_pattern
      (analyze_token_categories T decode analyzed).contains_basic_english ∧
    Disjoint (analyze_token_categories T decode analyzed).special_char_pattern
      (analyze_token_categories T decode analyzed).uncategorized ∧
    Disjoint (analyze_token_categories T decode analyzed).uncategorized
      (analyze_token_categories T decode analyzed).contains_japanese ∧
    Disjoint (analyze_token_categories T decode analyzed).uncategorized
      (analyze_token_categories T decode analyzed).pure_japanese_script ∧
    Disjoint (analyze_token_categories T decode analyzed).uncategorized
      (analyze_token_categories T decode analyzed).pure_english ∧
    Disjoint (analyze_token_categories T decode analyzed).uncategorized
      (analyze_token_categories T decode analyzed).contains_hiragana ∧
    Disjoint (analyze_token_categories T decode analyzed).uncategorized
      (analyze_token_categories T decode analyzed).contains_katakana_full ∧
    Disjoint (analyze_token_categories T decode analyzed).uncategorized
      (analyze_token_categories T decode analyzed).contains_katakana_half ∧
    Disjoint (analyze_token_categories T decode analyzed).uncategorized
      (analyze_token_categories T decode analyzed).contains_kanji ∧
    Disjoint (analyze_token_categories T decode analyzed).uncategorized
      (analyze_token_categories T decode analyzed).contains_jp_punct_symbol ∧
    Disjoint (analyze_token_categories T decode analyzed).uncategorized
      (analyze_token_categories T decode analyzed).contains_fullwidth_ascii ∧
    Disjoint (analyze_token_categories T decode analyzed).uncategorized
      (analyze_token_categories T decode analyzed).contains_basic_english ∧
    Disjoint (analyze_token_categories T decode analyzed).uncategorized
      (analyze_token_categories T decode analyzed).contains_digit ∧
    Disjoint (analyze_token_categories T decode analyzed).uncategorized
      (analyze_token_categories T decode analyzed).special_char_pattern := by
  have H := procToken_imps T
  have S := sub_covered_all T decode analyzed
  exact ⟨catSet_disj (fun d => (H d).2.2.2.2.2.2.2.2.1),
    catSet_disj (fun d => (H d).2.2.2.2.2.2.2.2.2.1),
    (disjoint_uncat S.2.1).symm,
    catSet_disj (fun d => (H d).2.2.2.2.2.2.2.2.2.2.1),
    catSet_disj (fun d => (H d).2.2.2.2.2.2.2.2.2.2.2.1),
    (disjoint_uncat S.2.2.1).symm,
    catSet_disj (fun d => (H d).2.2.2.2.2.2.2.2.2.2.2.2.1),
    catSet_disj (fun d => (H d).2.2.2.2.2.2.2.2.2.2.2.2.2),
    (disjoint_uncat S.2.2.2.2.2.2.2.2.2.2.2).symm,
    disjoint_uncat S.1,
    disjoint_uncat S.2.1,
    disjoint_uncat S.2.2.1,
    disjoint_uncat S.2.2.2.1,
    disjoint_uncat S.2.2.2.2.1,
    disjoint_uncat S.2.2.2.2.2.1,
    disjoint_uncat S.2.2.2.2.2.2.1,
    disjoint_uncat S.2.2.2.2.2.2.2.1,
    disjoint_uncat S.2.2.2.2.2.2.2.2.1,
    disjoint_uncat S.2.2.2.2.2.2.2.2.2.1,
    disjoint_uncat S.2.2.2.2.2.2.2.2.2.2.1,
    disjoint_uncat S.2.2.2.2.2.2.2.2.2.2.2⟩

/-- C7: for every analysis result, pure_japanese_script and every Japanese
facet category are subsets of contains_japanese, and pure_english is a
subset of contains_basic_english. -/
theorem C7_subset_invariants (T : CharTables) (decode : ℕ → DecodeOutcome)
    (analyzed : Finset ℕ) :
    (analyze_token_categories T decode analyzed).pure_japanese_script ⊆
      (analyze_token_categories T decode analyzed).contains_japanese ∧
    (analyze_token_categories T decode analyzed).contains_hiragana ⊆
      (analyze_token_categories T decode analyzed).contains_japanese ∧
    (analyze_token_categories T decode analyzed).contains_katakana_full ⊆
      (analyze_token_categories T decode analyzed).contains_japanese ∧
    (analyze_token_categories T decode analyzed).contains_katakana_half ⊆
      (analyze_token_categories T decode analyzed).contains_japanese ∧
    (analyze_token_categories T decode analyzed).contains_kanji ⊆
      (analyze_token_categories T decode analyzed).contains_japanese ∧
    (analyze_token_categories T decode analyzed).contains_jp_punct_symbol ⊆
      (analyze_token_categories T decode analyzed).contains_japanese ∧
    (analyze_token_categories T decode analyzed).contains_fullwidth_ascii ⊆
      (analyze_token_categories T decode analyzed).contains_japanese ∧
    (analyze_token_categories T decode analyzed).pure_english ⊆
      (analyze_token_categories T decode analyzed).contains_basic_english := by
  have H := procToken_imps T
  exact ⟨catSet_sub (fun d => (H d).1),
    catSet_sub (fun d => (H d).2.1),
    catSet_sub (fun d => (H d).2.2.1),
    catSet_sub (fun d => (H d).2.2.2.1),
    catSet_sub (fun d => (H d).2.2.2.2.1),
    catSet_sub (fun d => (H d).2.2.2.2.2.1),
    catSet_sub (fun d => (H d).2.2.2.2.2.2.1),
    catSet_sub (fun d => (H d).2.2.2.2.2.2.2.1)⟩

/-- C8: is_special_char_pattern returns true iff the token is non-empty and
every character in it is simultaneously not alphanumeric (by the external
Unicode alnum table), not whitespace, not a basic-English letter and not
Japanese-related; in particular it returns false on the empty string. -/
theorem C8_special_char_pattern_characterization (T : CharTables) (token : List Char) :
    (is_special_char_pattern T token = true ↔
      token ≠ [] ∧ ∀ c ∈ token,
        T.isalnum c = false ∧ T.isspace c = false ∧
        ENGLISH_BASIC c = false ∧ is_japanese_related_char c = false) ∧
    is_special_char_pattern T [] = false := by
  constructor
  · cases token with
    | nil => simp [is_special_char_pattern]
    | cons a l =>
        constructor
        · intro h
          refine ⟨by simp, fun c hc => ?_⟩
          have hx : (!(T.isalnum c) && !(T.isspace c) && !(is_japanese_related_char c) &&
              !(ENGLISH_BASIC c)) = true :=
            List.all_eq_true.mp h c hc
          simp only [Bool.and_eq_true, Bool.not_eq_true'] at hx
          exact ⟨hx.1.1.1, hx.1.1.2, hx.2, hx.1.2⟩
        · intro h
          refine List.all_eq_true.mpr fun c hc => ?_
          have hx := h.2 c hc
          simp only [Bool.and_eq_true, Bool.not_eq_true']
          exact ⟨⟨⟨hx.1, hx.2.1⟩, hx.2.2.2⟩, hx.2.2.1⟩
  · rfl

/-- C4 counterexample: the CJK compatibility ideograph U+F900 is rejected by
is_japanese_related_char, refuting the claim that compatibility ideographs
are included in related status (the source defines no CJK-compatibility
character set, so they fall outside every registry class). -/
theorem C4_counterexample :
    is_japanese_related_char (Char.ofNat 0xF900) = false ∧
    is_pure_japanese_script_char (Char.ofNat 0xF900) = false := by decide

/-- C4 amended: for every CJK compatibility ideograph (U+F900 to U+FAFF),
is_japanese_related_char and is_pure_japanese_script_char both return false —
the character-class registry of the source defines no CJK-compatibility set,
so such characters are excluded from related status as well as from pure
status. -/
theorem C4_compat_ideographs_excluded (c : Char)
    (h1 : 0xF900 ≤ c.toNat) (h2 : c.toNat ≤ 0xFAFF) :
    is_japanese_related_char c = false ∧ is_pure_japanese_script_char c = false := by
  constructor <;>
    (simp only [is_japanese_related_char, is_pure_japanese_script_char, HIRAGANA, KATAKANA,
       KATAKANA_HW, KANJI_COMMON, KANJI_EXT_A, JP_PUNCT, JP_SYMBOLS_ETC,
       JP_FULLWIDTH_ASCII_PRINTABLE, Bool.or_eq_false_iff, decide_eq_false_iff_not];
     omega)

/-- C4 witness: the amended theorem applied to the concrete compatibility
ideograph U+F900. -/
theorem C4_compat_ideographs_excluded_witness :
    is_japanese_related_char (Char.ofNat 0xF900) = false ∧
    is_pure_japanese_script_char (Char.ofNat 0xF900) = false :=
  C4_compat_ideographs_excluded (Char.ofNat 0xF900) (by decide) (by decide)

/-- C1: evaluation of the code at a failing input.  The decoded token "ｱ"
(U+FF71, half-width katakana) sets the has_katakana_half flag, but the
contains_katakana_half category set of the analysis result stays empty and
the run records one error: line 321 of the source writes to the dictionary
key "contains_halfwidth_katakana", which the categories dictionary never
defines, so the assignment raises KeyError instead of adding the id — while
the source's own dictionary (line 163) and test suite expect the id under
"contains_katakana_half". -/
theorem C1_katakana_half_never_assigned :
    (scanFlags ['ｱ']).has_katakana_half = true ∧
    (analyze_token_categories sampleTables
      (fun _ => DecodeOutcome.ok ['ｱ']) {0}).contains_katakana_half = ∅ ∧
    0 ∉ (analyze_token_categories sampleTables
      (fun _ => DecodeOutcome.ok ['ｱ']) {0}).contains_katakana_half ∧
    (analyze_token_categories sampleTables
      (fun _ => DecodeOutcome.ok ['ｱ']) {0}).num_errors = 1 := by decide

/-- C2: evaluation of the code at a failing input.  Classification of the
non-empty decoded token "ｱ" raises (the KeyError of the missing
"contains_halfwidth_katakana" dictionary key) and the run's error count
becomes 1, refuting the claim that per-token classification never raises
for non-empty input. -/
theorem C2_classification_raises_on_half_katakana :
    (['ｱ'] : List Char) ≠ [] ∧
    (classify sampleTables ['ｱ']).errored = true ∧
    (analyze_token_categories sampleTables
      (fun _ => DecodeOutcome.ok ['ｱ']) {0}).num_errors = 1 := by decide

/-- C3 counterexample: token id 0 decodes to "ｱ", its per-token processing
fails with the KeyError, yet the id does contribute to a positive category
set (contains_japanese, added before the raising line) and therefore does
not surface in uncategorized — refuting the claimed atomic discard. -/
theorem C3_counterexample :
    (procToken sampleTables (DecodeOutcome.ok ['ｱ'])).errored = true ∧
    0 ∈ (analyze_token_categories sampleTables
      (fun _ => DecodeOutcome.ok ['ｱ']) {0}).contains_japanese ∧
    0 ∉ (analyze_token_categories sampleTables
      (fun _ => DecodeOutcome.ok ['ｱ']) {0}).uncategorized := by decide

/-- C3 amended: an analyzed id whose per-token processing fails keeps the
category assignments already made before the failure point.  A decode-time
failure precedes every assignment, so such an id lands in uncategorized;
the only classification-time failure (the missing-key error) happens after
the contains_japanese assignment, so such an id is in contains_japanese and
not in uncategorized.  Either way the id still counts toward the analyzed
ids. -/
theorem C3_failed_token_contribution (T : CharTables) (decode : ℕ → DecodeOutcome)
    (analyzed : Finset ℕ) (i : ℕ) (hi : i ∈ analyzed)
    (herr : (procToken T (decode i)).errored = true) :
    (decode i = DecodeOutcome.failed →
      i ∈ (analyze_token_categories T decode analyzed).uncategorized) ∧
    (∀ s, decode i = DecodeOutcome.ok s →
      i ∈ (analyze_token_categories T decode analyzed).contains_japanese ∧
      i ∉ (analyze_token_categories T decode analyzed).uncategorized) := by
  constructor
  · intro hfail
    rw [result_uncategorized, Finset.mem_sdiff]
    refine ⟨hi, ?_⟩
    intro hcov
    simp only [coveredIds, Finset.mem_union, mem_catSet, hfail, procToken] at hcov
    simp [emptyCats] at hcov
  · intro s hok
    rw [hok] at herr
    by_cases hs : s = []
    · rw [hs] at herr
      simp [procToken, emptyCats] at herr
    · simp only [procToken, if_neg hs] at herr
      have hrel : is_related_to_jp (scanFlags s) = true := by
        simp only [classify, Bool.and_eq_true] at herr
        exact herr.1
      have hcj : (classify T s).contains_japanese = true := by
        simp only [classify]
        exact hrel
      have hmem : i ∈ catSet T decode analyzed (fun t => t.contains_japanese) :=
        mem_catSet.mpr ⟨hi, by rw [hok]; simp only [procToken, if_neg hs]; exact hcj⟩
      have hcov : i ∈ coveredIds T decode analyzed :=
        (sub_covered_all T decode analyzed).1 hmem
      refine ⟨hmem, ?_⟩
      intro hbad
      rw [result_uncategorized, Finset.mem_sdiff] at hbad
      exact hbad.2 hcov

/-- C3 witness: the amended theorem applied to a run with a single id whose
decode fails. -/
theorem C3_failed_token_contribution_witness :
    ((fun _ : ℕ => DecodeOutcome.failed) 0 = DecodeOutcome.failed →
      0 ∈ (analyze_token_categories sampleTables
        (fun _ : ℕ => DecodeOutcome.failed) {0}).uncategorized) ∧
    (∀ s, (fun _ : ℕ => DecodeOutcome.failed) 0 = DecodeOutcome.ok s →
      0 ∈ (analyze_token_categories sampleTables
        (fun _ : ℕ => DecodeOutcome.failed) {0}).contains_japanese ∧
      0 ∉ (analyze_token_categories sampleTables
        (fun _ : ℕ => DecodeOutcome.failed) {0}).uncategorized) :=
  C3_failed_token_contribution sampleTables (fun _ => DecodeOutcome.failed) {0} 0
    (by decide) (by decide)

/-- C9: whenever a non-empty list of japanese token ids is loaded (which
happens only under a nonzero requested bias), the prepared logit-bias
mapping sends each id's string form to the clamped bias value, and the
clamp lies in the interval from -100 to 100: it equals the requested bias
when that bias already lies in the interval and the nearer bound
otherwise. -/
theorem C9_logit_bias_clamped (japanese_ids : List ℤ) (japanese_bias : ℚ)
    (hb : japanese_bias ≠ 0) (hne : japanese_ids ≠ [])
    (token_id : ℤ) (hid : token_id ∈ japanese_ids) :
    prepare_logit_bias japanese_ids japanese_bias =
      some (logit_bias_dict japanese_ids japanese_bias) ∧
    (toString token_id, clamped_bias japanese_bias) ∈
      logit_bias_dict japanese_ids japanese_bias ∧
    -100 ≤ clamped_bias japanese_bias ∧ clamped_bias japanese_bias ≤ 100 ∧
    (-100 ≤ japanese_bias → japanese_bias ≤ 100 →
      clamped_bias japanese_bias = japanese_bias) ∧
    (japanese_bias < -100 → clamped_bias japanese_bias = -100) ∧
    (100 < japanese_bias → clamped_bias japanese_bias = 100) := by
  refine ⟨?_, ?_, ?_, ?_, ?_, ?_, ?_⟩
  · simp [prepare_logit_bias, hb, hne]
  · exact List.mem_map.mpr ⟨token_id, hid, rfl⟩
  · exact le_max_left _ _
  · exact max_le (by norm_num) (min_le_left _ _)
  · intro h1 h2
    simp only [clamped_bias]
    rw [min_eq_right h2, max_eq_right h1]
  · intro h
    simp only [clamped_bias]
    rw [min_eq_right (le_of_lt (lt_trans h (by norm_num))), max_eq_left (le_of_lt h)]
  · intro h
    simp only [clamped_bias]
    rw [min_eq_left (le_of_lt h), max_eq_right (by norm_num)]

/-- C9 witness: the theorem applied to the single id 5 with requested bias
150, which is clamped to 100. -/
theorem C9_logit_bias_clamped_witness :
    prepare_logit_bias [5] 150 = some (logit_bias_dict [5] 150) ∧
    (toString (5 : ℤ), clamped_bias 150) ∈ logit_bias_dict [5] 150 ∧
    -100 ≤ clamped_bias 150 ∧ clamped_bias (150 : ℚ) ≤ 100 ∧
    (-100 ≤ (150 : ℚ) → (150 : ℚ) ≤ 100 → clamped_bias 150 = 150) ∧
    ((150 : ℚ) < -100 → clamped_bias 150 = -100) ∧
    (100 < (150 : ℚ) → clamped_bias 150 = 100) :=
  C9_logit_bias_clamped [5] 150 (by decide) (by decide) 5 (by decide)

/-- C10 counterexample: the decoded token "ｱ０" contains the full-width digit
U+FF10 and no ASCII digit, yet its id is not assigned
contains_fullwidth_ascii (nor contains_digit): the half-width katakana in
the same token makes per-token processing fail before the
contains_fullwidth_ascii assignment, so the claim's "and hence
contains_japanese / contains_fullwidth_ascii" fails for the latter set. -/
theorem C10_counterexample :
    JP_FULLWIDTH_DIGITS '０' = true ∧
    (['ｱ', '０'].all fun c => !(charIsDigitAscii c)) = true ∧
    0 ∈ (analyze_token_categories sampleTables
      (fun _ => DecodeOutcome.ok ['ｱ', '０']) {0}).contains_japanese ∧
    0 ∉ (analyze_token_categories sampleTables
      (fun _ => DecodeOutcome.ok ['ｱ', '０']) {0}).contains_digit ∧
    0 ∉ (analyze_token_categories sampleTables
      (fun _ => DecodeOutcome.ok ['ｱ', '０']) {0}).contains_fullwidth_ascii := by decide

/-- C10 amended: for every analyzed token whose decoded text contains a
full-width digit but no ASCII digit, the id is not assigned contains_digit
(the digit flag is set only by the ASCII code-point comparison), the
full-width digit sets the full-width-ASCII flag and hence the id lands in
contains_japanese; it additionally lands in contains_fullwidth_ascii
provided the token contains no half-width katakana (otherwise per-token
processing fails before that assignment). -/
theorem C10_fullwidth_digit_not_digit (T : CharTables) (decode : ℕ → DecodeOutcome)
    (analyzed : Finset ℕ) (i : ℕ) (s : List Char)
    (hok : decode i = DecodeOutcome.ok s) (hi : i ∈ analyzed)
    (hfw : s.any JP_FULLWIDTH_DIGITS = true)
    (hnd : (s.all fun c => !(charIsDigitAscii c)) = true) :
    i ∉ (analyze_token_categories T decode analyzed).contains_digit ∧
    (scanFlags s).has_fullwidth_ascii = true ∧
    i ∈ (analyze_token_categories T decode analyzed).contains_japanese ∧
    ((s.all fun c => !(KATAKANA_HW c)) = true →
      i ∈ (analyze_token_categories T decode analyzed).contains_fullwidth_ascii) := by
  have hs : s ≠ [] := by
    intro h
    rw [h] at hfw
    simp at hfw
  have hfwa : (scanFlags s).has_fullwidth_ascii = true := by
    rw [scanFlags_has_fullwidth_ascii]
    obtain ⟨c, hc, hdc⟩ := List.any_eq_true.mp hfw
    exact List.any_eq_true.mpr ⟨c, hc, fullwidth_digit_is_fullwidth_ascii c hdc⟩
  have hdig : (scanFlags s).has_digit = false := by
    rw [scanFlags_has_digit]
    cases hany : s.any charIsDigitAscii with
    | false => rfl
    | true =>
        obtain ⟨c, hc, hdc⟩ := List.any_eq_true.mp hany
        have h2 := List.all_eq_true.mp hnd c hc
        simp [hdc] at h2
  have hrel : is_related_to_jp (scanFlags s) = true := by
    simp [is_related_to_jp, hfwa]
  refine ⟨?_, hfwa, ?_, ?_⟩
  · intro hmem
    rw [result_contains_digit, mem_catSet] at hmem
    have h2 := hmem.2
    rw [hok] at h2
    simp only [procToken, if_neg hs, classify, Bool.and_eq_true] at h2
    rw [hdig] at h2
    exact Bool.false_ne_true h2.2
  · rw [result_contains_japanese, mem_catSet]
    refine ⟨hi, ?_⟩
    rw [hok]
    simp only [procToken, if_neg hs, classify]
    exact hrel
  · intro hnk
    have hkh : (scanFlags s).has_katakana_half = false := by
      rw [scanFlags_has_katakana_half]
      cases hany : s.any KATAKANA_HW with
      | false => rfl
      | true =>
          obtain ⟨c, hc, hdc⟩ := List.any_eq_true.mp hany
          have h2 := List.all_eq_true.mp hnk c hc
          simp [hdc] at h2
    rw [result_contains_fullwidth_ascii, mem_catSet]
    refine ⟨hi, ?_⟩
    rw [hok]
    simp only [procToken, if_neg hs, classify]
    simp [hkh, hrel, hfwa]

/-- C10 witness: the amended theorem applied to a run with one id decoding to
the single full-width digit "０". -/
theorem C10_fullwidth_digit_not_digit_witness :
    0 ∉ (analyze_token_categories sampleTables
      (fun _ : ℕ => DecodeOutcome.ok ['０']) {0}).contains_digit ∧
    (scanFlags ['０']).has_fullwidth_ascii = true ∧
    0 ∈ (analyze_token_categories sampleTables
      (fun _ : ℕ => DecodeOutcome.ok ['０']) {0}).contains_japanese ∧
    ((['０'].all fun c => !(KATAKANA_HW c)) = true →
      0 ∈ (analyze_token_categories sampleTables
        (fun _ : ℕ => DecodeOutcome.ok ['０']) {0}).contains_fullwidth_ascii) :=
  C10_fullwidth_digit_not_digit sampleTables (fun _ => DecodeOutcome.ok ['０']) {0} 0 ['０']
    (by decide) (by decide) (by decide) (by decide)
